import Mathlib

/-!
# Timing Resilience Engine — verification of the synch-manager core

Shallow embedding of the Timing Resilience Engine of the synch-manager
repository: the Trust Scorer, the Peer Failover Selector, the Holdover
Drift Model, the War Mode State Machine, the spoofing heuristics and
edge-triggered emission of the Threat Detection Engine, and the Scenario
Engine.

Where the repository ships the deciding logic as code (the
`calculate_trust_score` function, the `CSACDriver.get_holdover_accuracy`
method, the failover algorithm, the War Mode trigger list and
configuration, the detection thresholds), the Lean definitions below are
translated from that code.  Where only the specification describes the
component (the scenario tick loop, the telemetry-liveness degradation
rule, the per-node edge-trigger latch), the definition is marked
`Modelled from the spec:` in its doc comment.
-/

namespace SynchManager

/-! ## Trust Scorer (docs/military-features.md, `calculate_trust_score`) -/

/-- The five verification inputs of a timing source, as read by
`calculate_trust_score` (docs/military-features.md §2.3). -/
structure TrustSource where
  crypto_authenticated : Bool
  cross_validated : Bool
  stability_ok : Bool
  transport_secured : Bool
  behavioral_normal : Bool
  deriving DecidableEq, Repr

/-- Translation of `calculate_trust_score` (docs/military-features.md §2.3):
start from 0 and add +30/+25/+20/+15/+10 for the five boolean inputs.
The source returns the plain sum, with no explicit clamp. -/
def calculate_trust_score (source : TrustSource) : ℤ :=
  let score : ℤ := 0
  let score := if source.crypto_authenticated then score + 30 else score
  let score := if source.cross_validated then score + 25 else score
  let score := if source.stability_ok then score + 20 else score
  let score := if source.transport_secured then score + 15 else score
  let score := if source.behavioral_normal then score + 10 else score
  score

/-- Clamp an integer into the interval [0,100], the defensive clamp the
specification describes for the output of the Trust Scorer. -/
def clampScore (x : ℤ) : ℤ := min 100 (max 0 x)

/-- Modelled from the spec: the trust-scoring service that consumes the
liveness window is not under src/ (only the weight function is, in
docs/military-features.md).  Per the spec, a source whose telemetry is
stale (age beyond the liveness window) or missing has its score capped at
50; fresh telemetry gets the plain `calculate_trust_score`.  The function
is total: staleness degrades the score, it never raises an error. -/
def trust_score_with_liveness (telemetry_present : Bool)
    (age_sec liveness_window_sec : ℚ) (source : TrustSource) : ℤ :=
  if telemetry_present ∧ age_sec ≤ liveness_window_sec then
    calculate_trust_score source
  else
    min (calculate_trust_score source) 50

/-! ## Peer Failover Selector (src/unnamed/part_002 §4.2) -/

/-- The candidate timing sources of the failover algorithm
(src/unnamed/part_002 §4.2). -/
inductive SelectedSource where
  | local_gnss
  | white_rabbit
  | peer_gnss
  | csac_holdover
  deriving DecidableEq, Repr

/-- The inputs the failover algorithm reads: local GNSS lock and trust
score, White Rabbit availability and link delay (µs), and the GNSS lock
and advertised trust score of the best peer
(src/unnamed/part_002 §§4.1–4.2). -/
structure FailoverInputs where
  local_gnss_locked : Bool
  local_trust_score : ℤ
  wr_available : Bool
  wr_link_delay_us : ℚ
  peer_gnss_locked : Bool
  peer_trust_score : ℤ
  deriving DecidableEq, Repr

/-- Translation of the failover algorithm (src/unnamed/part_002 §4.2):
local GNSS if locked and trust > 80; else White Rabbit if available with
link delay < 10 µs; else peer GNSS via PTP if the peer is locked with
trust > 90; else CSAC holdover. -/
def select_source (i : FailoverInputs) : SelectedSource :=
  if i.local_gnss_locked ∧ 80 < i.local_trust_score then
    .local_gnss
  else if i.wr_available ∧ i.wr_link_delay_us < 10 then
    .white_rabbit
  else if i.peer_gnss_locked ∧ 90 < i.peer_trust_score then
    .peer_gnss
  else
    .csac_holdover

/-! ## Holdover Drift Model (docs/sync-digital-twin.md) -/

/-- Oscillator types of the Holdover Drift Model
(docs/sync-digital-twin.md, clock sub-state). -/
inductive OscillatorType where
  | OCXO
  | RUBIDIUM
  | CESIUM
  | CSAC
  deriving DecidableEq, Repr

/-- The documented holdover time error (ns) after 1 hour of holdover, from
the calibration table of docs/sync-digital-twin.md. -/
def calib_error_1h_ns : OscillatorType → ℚ
  | .OCXO => 44
  | .RUBIDIUM => 108
  | .CESIUM => 36
  | .CSAC => 542

/-- The documented holdover time error (ns) after 72 hours of holdover,
from the calibration table of docs/sync-digital-twin.md. -/
def calib_error_72h_ns : OscillatorType → ℚ
  | .OCXO => 41500
  | .RUBIDIUM => 9700
  | .CESIUM => 2600
  | .CSAC => 50500

/-- Aging-rate constant `a_aging` (ns/s²) of the drift formula
`error(T) = f_offset*T + a_aging*T²/2` (docs/sync-digital-twin.md), the
unique value fitting the documented 1-hour and 72-hour calibration points
(T = 3600 s and T = 259200 s). -/
def a_aging (t : OscillatorType) : ℚ :=
  (calib_error_72h_ns t / 259200 - calib_error_1h_ns t / 3600) * 2 / (259200 - 3600)

/-- Initial frequency offset `f_offset` (ns/s) of the drift formula, the
unique value fitting the documented calibration points together with
`a_aging`. -/
def f_offset (t : OscillatorType) : ℚ :=
  calib_error_1h_ns t / 3600 - a_aging t * 3600 / 2

/-- The Holdover Drift Model (docs/sync-digital-twin.md):
`Time Error(T) ≈ f_offset × T + a_aging × T² / 2`, in nanoseconds, for
`T` seconds of holdover.  A total function: every oscillator type and
elapsed time yields a value, with no failure modes. -/
def EstimateError (t : OscillatorType) (T : ℚ) : ℚ :=
  f_offset t * T + a_aging t * T ^ 2 / 2

/-- Translation of `CSACDriver.get_holdover_accuracy`
(docs/military-features.md §4.2): linear drift
`drift_us = 3e-10 * hours_elapsed * 3600 * 1e6` microseconds. -/
def get_holdover_accuracy (hours_elapsed : ℚ) : ℚ :=
  (3 / 10 ^ 10) * hours_elapsed * 3600 * 10 ^ 6

/-! ## War Mode State Machine (docs/military-features.md §8,
src/unnamed/part_002 §5) -/

/-- The War Mode states (docs/military-features.md §8.2). -/
inductive WarModeState where
  | NORMAL
  | DEGRADED
  | WAR_MODE
  | RECOVERY
  deriving DecidableEq, Repr

/-- The aggregated fleet inputs one War Mode evaluation cycle reads:
total node count, nodes with an active CRITICAL jamming/spoofing
condition, the configured `war_mode_threshold_pct` (default 50,
src/unnamed/part_002 §6), the largest count of nodes in one declared
geographic region reporting simultaneous GNSS failure, and manual
operator activation (src/unnamed/part_002 §5.1). -/
structure WarTriggerInputs where
  total_nodes : ℕ
  critical_nodes : ℕ
  threshold_pct : ℕ
  same_region_gnss_failures : ℕ
  manual_activation : Bool
  deriving DecidableEq, Repr

/-- The DEGRADED → WAR_MODE trigger (src/unnamed/part_002 §5.1): the
fraction of nodes with an active CRITICAL jamming/spoofing condition
meets or exceeds `threshold_pct` percent, or ≥3 nodes in the same
geographic region report simultaneous GNSS failure, or manual operator
activation.  The fraction comparison `critical/total ≥ pct/100` is taken
over the integers as `100*critical ≥ pct*total`. -/
def war_mode_trigger (w : WarTriggerInputs) : Bool :=
  (decide (w.threshold_pct * w.total_nodes ≤ 100 * w.critical_nodes)) ||
    (decide (3 ≤ w.same_region_gnss_failures)) || w.manual_activation

/-- One aggregation-cycle step out of DEGRADED: to WAR_MODE exactly when
`war_mode_trigger` fires, else stay DEGRADED (src/unnamed/part_002 §5.1,
docs/military-features.md §8.2). -/
def degraded_step (w : WarTriggerInputs) : WarModeState :=
  if war_mode_trigger w then .WAR_MODE else .DEGRADED

/-- The fleet-wide signals one full War Mode aggregation cycle reads:
the DEGRADED→WAR_MODE trigger inputs, whether any single node reports a
CRITICAL ThreatEvent (NORMAL→DEGRADED), whether all nodes have reported
GNSS health restored for the configured duration (WAR_MODE→RECOVERY),
whether cryptographic re-verification succeeded fleet-wide and whether a
re-failure occurred (RECOVERY exits), and the `spoofing_score` and
critical-jamming-event count read by the War Mode Activation snippet of
docs/military-features.md (Israeli-systems section). -/
structure FleetSnapshot where
  triggers : WarTriggerInputs
  any_critical_threat : Bool
  gnss_restored_for_window : Bool
  osnma_reverified_fleetwide : Bool
  refailure : Bool
  spoofing_score : ℤ
  critical_jamming_events : ℕ
  deriving DecidableEq, Repr

/-- The severe-threat condition of the War Mode Activation snippet
(docs/military-features.md, "War Mode Activation"):
`spoofing_score > 80 or critical_jamming_events > 5`. -/
def severe_threat (f : FleetSnapshot) : Bool :=
  (decide (80 < f.spoofing_score)) || (decide (5 < f.critical_jamming_events))

/-- One aggregation-cycle step of the War Mode State Machine.  The cyclic
transitions follow docs/military-features.md §8.2 and
src/unnamed/part_002 §§5.1,5.3; in addition, the War Mode Activation
snippet of docs/military-features.md writes `current_state = WAR_MODE`
unconditionally — without reading the current state — whenever
`severe_threat` holds, so that write is applied from every state. -/
def war_mode_step (st : WarModeState) (f : FleetSnapshot) : WarModeState :=
  if severe_threat f then
    .WAR_MODE
  else
    match st with
    | .NORMAL => if f.any_critical_threat then .DEGRADED else .NORMAL
    | .DEGRADED => if war_mode_trigger f.triggers then .WAR_MODE else .DEGRADED
    | .WAR_MODE => if f.gnss_restored_for_window then .RECOVERY else .WAR_MODE
    | .RECOVERY =>
      if f.refailure then .WAR_MODE
      else if f.osnma_reverified_fleetwide then .NORMAL
      else .RECOVERY

/-! ## Threat Detection Engine — spoofing heuristics
(docs/military-features.md, detection thresholds; src/unnamed/part_002 §6) -/

/-- One cycle of spoofing-relevant measurements for one node: clock jump
since the last sample (µs), time divergence against the peer quorum (µs),
position jump (m) together with the configured position threshold
(`spoofing_position_threshold_m`, default 100, src/unnamed/part_002 §6),
largest sudden per-satellite power increase (dB), and code/carrier phase
divergence (m). -/
structure SpoofingSample where
  clock_jump_us : ℚ
  peer_divergence_us : ℚ
  position_jump_m : ℚ
  position_threshold_m : ℚ
  power_increase_db : ℚ
  code_carrier_divergence_m : ℚ
  deriving DecidableEq, Repr

/-- Modelled from the spec: the detection engine code
(`apps/security/gnss_resilience.py`, `osnma_authentication.py`) is not
under src/; the thresholds are documented in docs/military-features.md
(clock jump 100 µs, peer divergence 50 µs, power anomaly 6+ dB,
code/carrier 0.1 m) and src/unnamed/part_002 §6 (position threshold).
The five spoofing flags of one evaluation cycle. -/
def spoofing_flags (m : SpoofingSample) : List Bool :=
  [decide (100 < m.clock_jump_us),
   decide (50 < m.peer_divergence_us),
   decide (m.position_threshold_m < m.position_jump_m),
   decide (6 ≤ m.power_increase_db),
   decide (1 / 10 ≤ m.code_carrier_divergence_m)]

/-- Number of spoofing flags raised in the current cycle. -/
def spoofing_flag_count (m : SpoofingSample) : ℕ :=
  (spoofing_flags m).count true

/-- Outcome of one spoofing evaluation: no ThreatEvent, a provisional
ThreatEvent (exactly one flag), or a CRITICAL ThreatEvent (two or more
concurrent flags). -/
inductive SpoofingOutcome where
  | noEvent
  | provisionalEvent
  | criticalEvent
  deriving DecidableEq, Repr

/-- Modelled from the spec: any single spoofing flag raises a provisional
ThreatEvent; two or more concurrent flags raise severity to CRITICAL. -/
def detect_spoofing (m : SpoofingSample) : SpoofingOutcome :=
  if 2 ≤ spoofing_flag_count m then .criticalEvent
  else if 1 ≤ spoofing_flag_count m then .provisionalEvent
  else .noEvent

/-! ## Threat Detection Engine — edge-triggered emission -/

/-- Modelled from the spec: the per (node, threat type) emission latch of
the Threat Detection Engine.  Given the detected condition of the current
cycle and the detected condition of the previous cycle, a ThreatEvent is
emitted exactly on the rising edge (detected now, not detected before). -/
def emit_on_edge (cond prev : Bool) : Bool :=
  cond && !prev

/-- Modelled from the spec: running the edge-triggered emitter over the
condition values of consecutive cycles, threading the latch.  Entry `k`
of the result tells whether a ThreatEvent of this type+node was emitted
at cycle `k`. -/
def threat_emit_run : List Bool → Bool → List Bool
  | [], _ => []
  | c :: cs, prev => emit_on_edge c prev :: threat_emit_run cs c

/-- The latch value after running over a list of condition values: the
last condition seen, or the initial latch for an empty list. -/
def latch_after (cs : List Bool) (prev : Bool) : Bool :=
  cs.foldl (fun _ c => c) prev

/-! ## Scenario Engine (docs/sync-digital-twin.md, spec §4.2) -/

/-- The transition kinds a scenario target may use
(docs/sync-digital-twin.md, Transition Types). -/
inductive TransitionKind where
  | instant
  | linear_increase
  | linear_decrease
  | exponential_decay
  | random_walk
  deriving DecidableEq, Repr

/-- A scenario target (docs/sync-digital-twin.md, Scenario Format):
addressed virtual NE, parameter path, transition kind, from/to values and
duration. -/
structure ScenarioTarget where
  virtual_ne : String
  parameter : String
  transition : TransitionKind
  from_value : ℚ
  to_value : ℚ
  duration_seconds : ℚ
  deriving DecidableEq, Repr

/-- A scenario event: identity, scheduled scenario time, targets, and the
applied marker guarding at-most-once application (spec §4.2). -/
structure ScenarioEvent where
  id : ℕ
  time_offset_seconds : ℚ
  targets : List ScenarioTarget
  applied : Bool
  deriving DecidableEq, Repr

/-- An active transition installed on one (virtual NE, parameter) slot of
the Virtual Node State Store, remembering when it started. -/
structure ActiveTransition where
  transition : TransitionKind
  from_value : ℚ
  to_value : ℚ
  duration_seconds : ℚ
  start_time : ℚ
  deriving DecidableEq, Repr

/-- The Virtual Node State Store, keyed by (virtual NE id, parameter
path); each slot holds the most recently applied transition
(overlapping writes are last-write-wins, spec §7). -/
abbrev VirtualNodeStore := List ((String × String) × ActiveTransition)

/-- Modelled from the spec: bounded deterministic per-tick perturbation
used by `random_walk`.  The spec requires replaying a scenario to
reproduce identical trajectories, so the noise is a fixed function of the
tick index, bounded in [-3/10, 3/10]. -/
def noise_step (i : ℕ) : ℚ :=
  (((i * i * 31 + i * 17) % 7 : ℕ) : ℚ) / 10 - 3 / 10

/-- Modelled from the spec: the observable value of an active transition
at scenario time `t` (spec §4.2): `instant` takes the target value;
`linear_increase`/`linear_decrease` interpolate linearly over the
duration, clamped at the target bound; `exponential_decay` decays towards
the target with a time constant derived from the duration (discretized
per tick); `random_walk` perturbs the center by bounded deterministic
noise per tick. -/
def value_at (tr : ActiveTransition) (t : ℚ) : ℚ :=
  let e := t - tr.start_time
  match tr.transition with
  | .instant => tr.to_value
  | .linear_increase =>
    if tr.duration_seconds ≤ e then tr.to_value
    else min tr.to_value
      (tr.from_value + (tr.to_value - tr.from_value) * e / tr.duration_seconds)
  | .linear_decrease =>
    if tr.duration_seconds ≤ e then tr.to_value
    else max tr.to_value
      (tr.from_value + (tr.to_value - tr.from_value) * e / tr.duration_seconds)
  | .exponential_decay =>
    tr.to_value +
      (tr.from_value - tr.to_value) * (1 / 2) ^ (Int.toNat ⌊e / (tr.duration_seconds / 4)⌋)
  | .random_walk => tr.to_value + noise_step (Int.toNat ⌈e⌉)

/-- Install an active transition on one store slot, replacing any
previous transition on the same (virtual NE, parameter) key. -/
def set_param (st : VirtualNodeStore) (key : String × String)
    (tr : ActiveTransition) : VirtualNodeStore :=
  (key, tr) :: st.filter (fun p => p.1 ≠ key)

/-- Apply one scenario target at scenario time `t`: install its
transition on the addressed slot, started at `t`. -/
def apply_target (t : ℚ) (st : VirtualNodeStore) (tg : ScenarioTarget) :
    VirtualNodeStore :=
  set_param st (tg.virtual_ne, tg.parameter)
    ⟨tg.transition, tg.from_value, tg.to_value, tg.duration_seconds, t⟩

/-- State of one running scenario instance: the store and the event list
with applied markers. -/
structure EngineState where
  store : VirtualNodeStore
  events : List ScenarioEvent
  deriving DecidableEq, Repr

/-- An event is due at tick time `t` when its scheduled time has been
reached and it has not been applied yet (spec §4.2, tick step 2). -/
def event_due (t : ℚ) (e : ScenarioEvent) : Bool :=
  decide (e.time_offset_seconds ≤ t) && !e.applied

/-- Set the applied marker of an event that is due at tick time `t`. -/
def mark_applied (t : ℚ) (e : ScenarioEvent) : ScenarioEvent :=
  if event_due t e then { e with applied := true } else e

/-- Modelled from the spec: one tick of the Scenario Engine at scenario
time `t` (spec §4.2): select every event scheduled at or before `t` and
not yet applied, apply each of its targets to the store (transitions
start at the scheduled event time), and set the applied markers.  Returns
the new state and the ids of the events applied this tick. -/
def tick (t : ℚ) (s : EngineState) : EngineState × List ℕ :=
  let due := s.events.filter (event_due t)
  let store := due.foldl
    (fun st e => e.targets.foldl (apply_target e.time_offset_seconds) st) s.store
  let events := s.events.map (mark_applied t)
  (⟨store, events⟩, due.map (fun e => e.id))

/-- Modelled from the spec: run the tick loop over a list of tick times,
concatenating the per-tick application logs. -/
def run_ticks : List ℚ → EngineState → EngineState × List ℕ
  | [], s => (s, [])
  | t :: ts, s =>
    ((run_ticks ts (tick t s).1).1, (tick t s).2 ++ (run_ticks ts (tick t s).1).2)

/-- The observable node states of the store at scenario time `t`: each
slot evaluated through `value_at`. -/
def node_values (st : VirtualNodeStore) (t : ℚ) : List ((String × String) × ℚ) :=
  st.map (fun p => (p.1, value_at p.2 t))

/-- The application log of the tick loop, expressed on the event list
alone (the store does not influence which events are applied). -/
def applied_log : List ℚ → List ScenarioEvent → List ℕ
  | [], _ => []
  | t :: ts, es =>
    (es.filter (event_due t)).map (fun e => e.id) ++
      applied_log ts (es.map (mark_applied t))

/-! ## Helper lemmas -/

/-- An unauthenticated source can collect at most the four remaining
weights 25+20+15+10 = 70. -/
lemma trust_score_le_70_of_unauthenticated (s : TrustSource)
    (h : s.crypto_authenticated = false) : calculate_trust_score s ≤ 70 := by
  rcases s with ⟨a, b, c, d, e⟩
  dsimp at h
  subst h
  cases b <;> cases c <;> cases d <;> cases e <;> decide

/-- Both drift coefficients are nonnegative for every oscillator type. -/
lemma drift_coefficients_nonneg (t : OscillatorType) :
    0 ≤ f_offset t ∧ 0 ≤ a_aging t := by
  cases t <;> constructor <;>
    norm_num [f_offset, a_aging, calib_error_1h_ns, calib_error_72h_ns]

/-! ## Claim theorems -/

/-- C1: for every combination of the five boolean inputs,
`calculate_trust_score` returns an integer in [0,100], and that integer
is exactly the clamp to [0,100] of the sum of the weights
+30, +25, +20, +15, +10 of the inputs that hold. -/
theorem trust_score_in_range_and_clamped (s : TrustSource) :
    0 ≤ calculate_trust_score s ∧ calculate_trust_score s ≤ 100 ∧
      calculate_trust_score s =
        clampScore ((if s.crypto_authenticated then (30 : ℤ) else 0) +
          (if s.cross_validated then 25 else 0) +
          (if s.stability_ok then 20 else 0) +
          (if s.transport_secured then 15 else 0) +
          (if s.behavioral_normal then 10 else 0)) := by
  rcases s with ⟨a, b, c, d, e⟩
  cases a <;> cases b <;> cases c <;> cases d <;> cases e <;> decide

/-- C2: for every source whose telemetry is missing or older than the
liveness window, the trust score is at most 50, whatever the five
weighted inputs are; the scoring function is total, so no error reaches
the caller. -/
theorem stale_telemetry_caps_score (present : Bool) (age window : ℚ)
    (s : TrustSource) (h : present = false ∨ window < age) :
    trust_score_with_liveness present age window s ≤ 50 := by
  unfold trust_score_with_liveness
  rw [if_neg]
  · exact min_le_right _ _
  · rintro ⟨hp, hle⟩
    rcases h with h | h
    · rw [h] at hp
      exact Bool.false_ne_true hp
    · linarith

/-- Witness for C2 at a concrete stale input: telemetry absent, all five
inputs true, yet the score is capped at 50. -/
theorem stale_telemetry_caps_score_witness :
    trust_score_with_liveness false 0 3600 ⟨true, true, true, true, true⟩ ≤ 50 :=
  stale_telemetry_caps_score false 0 3600 ⟨true, true, true, true, true⟩ (Or.inl rfl)

/-- C3: for every oscillator type and all elapsed times 0 ≤ T₁ < T₂, the
Holdover Drift Model is monotonically increasing:
`EstimateError type T₁ ≤ EstimateError type T₂`.  `EstimateError` is a
total Lean function, so it has no failure modes. -/
theorem estimate_error_monotone (t : OscillatorType) (T1 T2 : ℚ)
    (h0 : 0 ≤ T1) (h12 : T1 < T2) :
    EstimateError t T1 ≤ EstimateError t T2 := by
  obtain ⟨hf, ha⟩ := drift_coefficients_nonneg t
  have h1 : T1 ≤ T2 := le_of_lt h12
  have hsq : T1 ^ 2 ≤ T2 ^ 2 := pow_le_pow_left₀ h0 h1 2
  have e1 : f_offset t * T1 ≤ f_offset t * T2 := mul_le_mul_of_nonneg_left h1 hf
  have e2 : a_aging t * T1 ^ 2 ≤ a_aging t * T2 ^ 2 := mul_le_mul_of_nonneg_left hsq ha
  unfold EstimateError
  linarith

/-- Witness for C3 at a concrete input: the OCXO drift estimate grows
from 1 hour to 72 hours of holdover. -/
theorem estimate_error_monotone_witness :
    (0 : ℚ) ≤ 3600 ∧ (3600 : ℚ) < 259200 ∧
      EstimateError .OCXO 3600 ≤ EstimateError .OCXO 259200 :=
  ⟨by norm_num, by norm_num,
    estimate_error_monotone .OCXO 3600 259200 (by norm_num) (by norm_num)⟩

/-- C4: whenever local GNSS is locked and the local trust score exceeds
80, the failover algorithm selects local GNSS, regardless of every other
input — in particular regardless of any higher peer trust score. -/
theorem local_gnss_selected_when_trusted (i : FailoverInputs)
    (hlock : i.local_gnss_locked = true) (htrust : 80 < i.local_trust_score) :
    select_source i = .local_gnss := by
  unfold select_source
  rw [if_pos ⟨hlock, htrust⟩]

/-- Witness for C4 at the literal scenario of the spec: local GNSS
locked with trust 85 beats a locked peer advertising trust 99. -/
theorem local_gnss_selected_when_trusted_witness :
    select_source ⟨true, 85, true, 1, true, 99⟩ = .local_gnss :=
  local_gnss_selected_when_trusted ⟨true, 85, true, 1, true, 99⟩ rfl (by decide)

/-- C10: a source without cryptographic authentication scores at most 70
(the sum of the remaining weights 25+20+15+10), hence can never pass the
`trust_score > 80` gate; consequently, when the local trust score fed to
the failover algorithm is computed by `calculate_trust_score`, selecting
local GNSS implies the local source was cryptographically
authenticated. -/
theorem unauthenticated_never_selects_local_gnss :
    (∀ s : TrustSource, s.crypto_authenticated = false →
      calculate_trust_score s ≤ 70) ∧
    (∀ (s : TrustSource) (i : FailoverInputs),
      i.local_trust_score = calculate_trust_score s →
      select_source i = .local_gnss → s.crypto_authenticated = true) := by
  constructor
  · exact trust_score_le_70_of_unauthenticated
  · intro s i hscore hsel
    cases hx : s.crypto_authenticated with
    | true => rfl
    | false =>
      exfalso
      have h70 : calculate_trust_score s ≤ 70 :=
        trust_score_le_70_of_unauthenticated s hx
      unfold select_source at hsel
      by_cases hc : (i.local_gnss_locked ∧ 80 < i.local_trust_score)
      · have h80 : (80 : ℤ) < calculate_trust_score s := hscore ▸ hc.2
        omega
      · rw [if_neg hc] at hsel
        split at hsel
        · exact SelectedSource.noConfusion hsel
        · split at hsel
          · exact SelectedSource.noConfusion hsel
          · exact SelectedSource.noConfusion hsel

/-- Witness for C10 at a concrete input: with authentication failed and
all four other inputs true, the score evaluates within the 70 bound. -/
theorem unauthenticated_never_selects_local_gnss_witness :
    (⟨false, true, true, true, true⟩ : TrustSource).crypto_authenticated = false ∧
      calculate_trust_score ⟨false, true, true, true, true⟩ ≤ 70 :=
  ⟨rfl, unauthenticated_never_selects_local_gnss.1
    ⟨false, true, true, true, true⟩ rfl⟩

/-- C5: in DEGRADED, one aggregation cycle moves to WAR_MODE exactly when
the fraction of CRITICAL jamming/spoofing nodes meets or exceeds the
configured threshold, or ≥3 nodes of one region report simultaneous GNSS
failure, or an operator activates manually; with 10 nodes and the default
50% threshold, 5 CRITICAL nodes trigger the transition and 4 leave the
machine in DEGRADED. -/
theorem degraded_to_war_mode_iff :
    (∀ w : WarTriggerInputs, degraded_step w = .WAR_MODE ↔
      (w.threshold_pct * w.total_nodes ≤ 100 * w.critical_nodes ∨
        3 ≤ w.same_region_gnss_failures ∨ w.manual_activation = true)) ∧
    degraded_step ⟨10, 5, 50, 0, false⟩ = .WAR_MODE ∧
    degraded_step ⟨10, 4, 50, 0, false⟩ = .DEGRADED := by
  refine ⟨fun w => ?_, by decide, by decide⟩
  have haux : war_mode_trigger w = true ↔
      (w.threshold_pct * w.total_nodes ≤ 100 * w.critical_nodes ∨
        3 ≤ w.same_region_gnss_failures ∨ w.manual_activation = true) := by
    simp [war_mode_trigger, or_assoc]
  cases h : war_mode_trigger w
  · rw [h] at haux
    simp only [degraded_step, h]
    simp only [Bool.false_eq_true, if_false]
    constructor
    · intro hcontr
      exact absurd hcontr (by decide)
    · intro hr
      exact absurd (haux.mpr hr) (by decide)
  · rw [h] at haux
    simp only [degraded_step, h, if_true]
    constructor
    · intro _
      exact haux.mp rfl
    · intro _
      trivial

/-- C6: the documented War Mode Activation snippet writes
`current_state = WAR_MODE` without reading the current state, so at
`spoofing_score = 81` the machine steps directly from NORMAL to WAR_MODE
— a transition outside the documented
NORMAL→DEGRADED→WAR_MODE→RECOVERY cycle, which permits only
NORMAL→DEGRADED out of NORMAL. -/
theorem war_mode_activation_bypasses_cycle :
    war_mode_step .NORMAL ⟨⟨10, 0, 50, 0, false⟩, false, false, false, false, 81, 0⟩ =
      .WAR_MODE ∧
    war_mode_step .NORMAL ⟨⟨10, 0, 50, 0, false⟩, false, false, false, false, 81, 0⟩ ≠
      .DEGRADED ∧
    war_mode_step .NORMAL ⟨⟨10, 0, 50, 0, false⟩, false, false, false, false, 81, 0⟩ ≠
      .NORMAL := by
  refine ⟨?_, ?_, ?_⟩ <;> decide

/-- C8: a spoofing ThreatEvent is raised exactly when at least one of the
five heuristics fires — clock jump > 100 µs, peer divergence > 50 µs,
position jump beyond the configured threshold, power increase ≥ 6 dB, or
code/carrier divergence ≥ 0.1 m — and the severity is CRITICAL exactly
when two or more flags are concurrent (a single flag yields a provisional
event). -/
theorem spoofing_detection_thresholds (m : SpoofingSample) :
    (detect_spoofing m ≠ .noEvent ↔
      (100 < m.clock_jump_us ∨ 50 < m.peer_divergence_us ∨
        m.position_threshold_m < m.position_jump_m ∨
        6 ≤ m.power_increase_db ∨ 1 / 10 ≤ m.code_carrier_divergence_m)) ∧
    (detect_spoofing m = .criticalEvent ↔ 2 ≤ spoofing_flag_count m) ∧
    (detect_spoofing m = .provisionalEvent ↔ spoofing_flag_count m = 1) := by
  by_cases h1 : 100 < m.clock_jump_us <;>
    by_cases h2 : 50 < m.peer_divergence_us <;>
    by_cases h3 : m.position_threshold_m < m.position_jump_m <;>
    by_cases h4 : 6 ≤ m.power_increase_db <;>
    by_cases h5 : (10 : ℚ)⁻¹ ≤ m.code_carrier_divergence_m <;>
    simp [detect_spoofing, spoofing_flag_count, spoofing_flags, one_div,
      h1, h2, h3, h4, h5, List.count_cons]

/-- The emitter produces one output per cycle. -/
lemma threat_emit_run_length (cs : List Bool) (prev : Bool) :
    (threat_emit_run cs prev).length = cs.length := by
  induction cs generalizing prev with
  | nil => rfl
  | cons c cs ih => simp [threat_emit_run, ih]

/-- With the latch already set and the condition continuously true, the
emitter stays silent. -/
lemma threat_emit_run_silent (cs : List Bool)
    (h : ∀ b ∈ cs, b = true) : (threat_emit_run cs true).count true = 0 := by
  induction cs with
  | nil => rfl
  | cons c cs ih =>
    have hc : c = true := h c (List.mem_cons_self c cs)
    subst hc
    simp only [threat_emit_run, emit_on_edge, Bool.not_true, Bool.and_false,
      List.count_cons]
    rw [ih (fun b hb => h b (List.mem_cons_of_mem _ hb))]
    rfl

/-- The emitter distributes over appending cycle lists, threading the
latch. -/
lemma threat_emit_run_append (xs ys : List Bool) (prev : Bool) :
    threat_emit_run (xs ++ ys) prev =
      threat_emit_run xs prev ++ threat_emit_run ys (latch_after xs prev) := by
  induction xs generalizing prev with
  | nil => rfl
  | cons c xs ih => simp [threat_emit_run, ih, latch_after]

/-- C9: over consecutive cycles in which the triggering condition of a
given type+node stays continuously true, the edge-triggered emitter
produces at most one ThreatEvent whatever the initial latch; and after
the condition clears for one cycle and re-triggers, a new ThreatEvent is
emitted at the re-trigger cycle. -/
theorem threat_event_edge_triggered :
    (∀ (cs : List Bool) (prev : Bool), (∀ b ∈ cs, b = true) →
      (threat_emit_run cs prev).count true ≤ 1) ∧
    (∀ (cs1 cs2 : List Bool) (prev : Bool),
      (threat_emit_run (cs1 ++ false :: true :: cs2) prev)[cs1.length + 1]? =
        some true) := by
  constructor
  · intro cs prev h
    cases cs with
    | nil => simp [threat_emit_run]
    | cons c cs =>
      have hc : c = true := h c (List.mem_cons_self c cs)
      subst hc
      have h0 := threat_emit_run_silent cs (fun b hb => h b (List.mem_cons_of_mem _ hb))
      simp only [threat_emit_run, emit_on_edge, Bool.true_and, List.count_cons, h0]
      cases prev <;> decide
  · intro cs1 cs2 prev
    rw [threat_emit_run_append]
    rw [List.getElem?_append_right (by rw [threat_emit_run_length]; omega)]
    rw [threat_emit_run_length]
    have hidx : cs1.length + 1 - cs1.length = 1 := by omega
    rw [hidx]
    simp [threat_emit_run, emit_on_edge]

/-- Witness for C9 at a concrete run: condition true for three
consecutive cycles from a clear latch emits at most once. -/
theorem threat_event_edge_triggered_witness :
    (∀ b ∈ [true, true, true], b = true) ∧
      (threat_emit_run [true, true, true] false).count true ≤ 1 :=
  ⟨by decide, threat_event_edge_triggered.1 [true, true, true] false (by decide)⟩

/-- Setting the applied marker does not change the event identity. -/
lemma mark_applied_id (t : ℚ) (e : ScenarioEvent) :
    (mark_applied t e).id = e.id := by
  unfold mark_applied
  split <;> rfl

/-- Setting the applied markers of a tick keeps the id list of the event
list. -/
lemma map_mark_applied_ids (t : ℚ) (es : List ScenarioEvent) :
    ((es.map (mark_applied t)).map (fun e => e.id)) = es.map (fun e => e.id) := by
  induction es with
  | nil => rfl
  | cons e es ih => simp [mark_applied_id, ih]

/-- The applied marker is monotone: once set, a tick never clears it. -/
lemma mark_applied_monotone (t : ℚ) (e : ScenarioEvent)
    (h : e.applied = true) : (mark_applied t e).applied = true := by
  unfold mark_applied
  split
  · rfl
  · exact h

/-- If every event of a given id already carries the applied marker, that
id never appears in the application log of any further run. -/
lemma not_mem_applied_log (ts : List ℚ) :
    ∀ (es : List ScenarioEvent) (n : ℕ),
      (∀ e ∈ es, e.id = n → e.applied = true) → n ∉ applied_log ts es := by
  induction ts with
  | nil =>
    intro es n _h
    simp [applied_log]
  | cons t ts ih =>
    intro es n h
    simp only [applied_log, List.mem_append, not_or]
    constructor
    · intro hmem
      rcases List.mem_map.mp hmem with ⟨e, he, hid⟩
      rcases List.mem_filter.mp he with ⟨hes, hdue⟩
      have happ : e.applied = true := h e hes hid
      unfold event_due at hdue
      rw [happ] at hdue
      simp at hdue
    · apply ih
      intro f hf hfid
      rcases List.mem_map.mp hf with ⟨e, he, rfl⟩
      rw [mark_applied_id] at hfid
      exact mark_applied_monotone t e (h e he hfid)

/-- With pairwise-distinct event ids, the application log of a run is
duplicate-free: each event is applied at most once. -/
lemma applied_log_nodup (ts : List ℚ) :
    ∀ es : List ScenarioEvent, (es.map (fun e => e.id)).Nodup →
      (applied_log ts es).Nodup := by
  induction ts with
  | nil =>
    intro es _
    simp [applied_log]
  | cons t ts ih =>
    intro es hnd
    simp only [applied_log]
    apply List.Nodup.append
    · exact hnd.sublist ((List.filter_sublist es).map (fun e => e.id))
    · exact ih _ (by rw [map_mark_applied_ids]; exact hnd)
    · intro n hn hn2
      rcases List.mem_map.mp hn with ⟨e, hef, rfl⟩
      rcases List.mem_filter.mp hef with ⟨hes, hdue⟩
      refine not_mem_applied_log ts _ e.id ?_ hn2
      intro f hf hfid
      rcases List.mem_map.mp hf with ⟨e0, he0, rfl⟩
      rw [mark_applied_id] at hfid
      have he0e : e0 = e := List.inj_on_of_nodup_map hnd he0 hes hfid
      subst he0e
      unfold mark_applied
      rw [if_pos hdue]

/-- The application log of the tick loop coincides with `applied_log` on
the event list: which events get applied does not depend on the store. -/
lemma run_ticks_log (ts : List ℚ) :
    ∀ s : EngineState, (run_ticks ts s).2 = applied_log ts s.events := by
  induction ts with
  | nil => intro s; rfl
  | cons t ts ih =>
    intro s
    show (tick t s).2 ++ (run_ticks ts (tick t s).1).2 = _
    rw [ih]
    rfl

/-- C7: the Scenario Engine is deterministic and idempotent per event:
two runs of the tick loop from equal engine states over equal tick lists
yield equal states — hence equal observable node values — after every
tick prefix, and with pairwise-distinct event ids each event is applied
at most once over the whole run (the application log has no
duplicates). -/
theorem scenario_replay_identical (s1 s2 : EngineState) (ts : List ℚ)
    (h : s1 = s2) :
    (∀ n : ℕ, run_ticks (ts.take n) s1 = run_ticks (ts.take n) s2) ∧
    (∀ (n : ℕ) (t : ℚ),
      node_values (run_ticks (ts.take n) s1).1.store t =
        node_values (run_ticks (ts.take n) s2).1.store t) ∧
    ((s1.events.map (fun e => e.id)).Nodup → (run_ticks ts s1).2.Nodup) := by
  subst h
  refine ⟨fun _n => rfl, fun _n _t => rfl, fun hnd => ?_⟩
  rw [run_ticks_log]
  exact applied_log_nodup ts s1.events hnd

/-- A small concrete scenario instance: two events with distinct ids on a
fresh topology, mirroring the GNSS-jamming example scenario of
docs/sync-digital-twin.md. -/
def exampleScenarioState : EngineState :=
  ⟨[],
   [⟨0, 0, [⟨"site_a_tp4100", "gnss.avg_cn0", .linear_decrease, 45, 20, 180⟩], false⟩,
    ⟨1, 1, [⟨"site_a_tp4100", "gnss.lock_state", .instant, 0, 0, 0⟩], false⟩]⟩

/-- Witness for C7 at the concrete scenario instance: replaying over two
ticks reproduces the same trajectory and applies each event at most
once. -/
theorem scenario_replay_identical_witness :
    (exampleScenarioState.events.map (fun e => e.id)).Nodup ∧
      (run_ticks [0, 1] exampleScenarioState).2.Nodup := by
  have h := scenario_replay_identical exampleScenarioState exampleScenarioState
    [0, 1] rfl
  exact ⟨by decide, h.2.2 (by decide)⟩

end SynchManager
